import Mathlib

/-!
Verification of react-native-infinite-pager against its specification.

The embedding covers the latest revision of `src/index.tsx` (the variant with
`useStableCallback`, `initialIndex` and `fadeInDuration`): the pan-gesture
callbacks (`onBegin`, `onTouchesMove`, `onUpdate`, `onEnd`, `onFinalize`),
the `isGestureLocked` derived value, the shared `activePagers` registry, the
`pageAnim` projection and its `useAnimatedReaction` commit, and the
imperative `setPage` / `incrementPage` / `decrementPage` API.

Modelling conventions:
* JavaScript numbers are modelled as exact extended rationals: a rational
  payload plus the IEEE-754 special values `Infinity`, `-Infinity` and `NaN`
  (`JsNum` below).  All concrete values appearing in the claims are small
  dyadic/decimal quantities for which double rounding never changes the
  outcome of any comparison or `Math.round` used by the code.
* Pager identifiers are the strings "orientation:nestingDepth:salt"; they are
  modelled structurally as `PagerId` records, `v.split(":")[0]` becoming the
  `orientation` field and `Number(v.split(":")[1])` the `depth` field.
* Shared mutable `SharedValue` state is passed explicitly: each gesture
  callback is a function from the values it reads to the values it writes.
-/

namespace InfinitePager

/-- JS `Math.round` on a finite value: round half toward positive infinity. -/
def jsRoundQ (q : ℚ) : ℤ := ⌊q + 1/2⌋

/-- Truncation toward zero, the rounding used by the JS `%` operator. -/
def jtruncQ (q : ℚ) : ℤ := if 0 ≤ q then ⌊q⌋ else ⌈q⌉

/-- JS remainder `a % b` for finite `a`, `b` with `b ≠ 0`:
`a - b * trunc (a / b)`, which keeps the sign of the dividend. -/
def jsModQ (a b : ℚ) : ℚ := a - b * jtruncQ (a / b)

/-- A JavaScript number: an exact rational, or one of the IEEE-754 special
values `Infinity`, `-Infinity`, `NaN`. -/
inductive JsNum where
  | num : ℚ → JsNum
  | inf : JsNum
  | neginf : JsNum
  | nan : JsNum
deriving DecidableEq, Repr

namespace JsNum

/-- IEEE unary minus. -/
def jneg : JsNum → JsNum
  | num q => num (-q)
  | inf => neginf
  | neginf => inf
  | nan => nan

/-- IEEE addition. -/
def jadd : JsNum → JsNum → JsNum
  | nan, _ => nan
  | _, nan => nan
  | inf, neginf => nan
  | neginf, inf => nan
  | inf, _ => inf
  | _, inf => inf
  | neginf, _ => neginf
  | _, neginf => neginf
  | num a, num b => num (a + b)

/-- IEEE subtraction, `a - b = a + (-b)`. -/
def jsub (a b : JsNum) : JsNum := jadd a (jneg b)

/-- IEEE multiplication (zero times an infinity is `NaN`). -/
def jmul : JsNum → JsNum → JsNum
  | nan, _ => nan
  | _, nan => nan
  | num a, num b => num (a * b)
  | inf, num a => if 0 < a then inf else if a < 0 then neginf else nan
  | num a, inf => if 0 < a then inf else if a < 0 then neginf else nan
  | neginf, num a => if 0 < a then neginf else if a < 0 then inf else nan
  | num a, neginf => if 0 < a then neginf else if a < 0 then inf else nan
  | inf, inf => inf
  | inf, neginf => neginf
  | neginf, inf => neginf
  | neginf, neginf => inf

/-- IEEE division (a nonzero number over zero is a signed infinity,
`0 / 0` is `NaN`; the code never produces a negative zero divisor). -/
def jdiv : JsNum → JsNum → JsNum
  | nan, _ => nan
  | _, nan => nan
  | num a, num b =>
      if b = 0 then (if 0 < a then inf else if a < 0 then neginf else nan)
      else num (a / b)
  | inf, num b => if 0 ≤ b then inf else neginf
  | neginf, num b => if 0 ≤ b then neginf else inf
  | num _, inf => num 0
  | num _, neginf => num 0
  | inf, inf => nan
  | inf, neginf => nan
  | neginf, inf => nan
  | neginf, neginf => nan

/-- JS remainder `a % b`: `NaN` when either operand is `NaN`, the dividend is
infinite, or the divisor is zero; a finite dividend modulo an infinite
divisor is the dividend itself. -/
def jmod : JsNum → JsNum → JsNum
  | nan, _ => nan
  | _, nan => nan
  | inf, _ => nan
  | neginf, _ => nan
  | num a, inf => num a
  | num a, neginf => num a
  | num a, num b => if b = 0 then nan else num (jsModQ a b)

/-- IEEE comparison `a <= b`; any comparison against `NaN` is false. -/
def jle : JsNum → JsNum → Bool
  | nan, _ => false
  | _, nan => false
  | neginf, _ => true
  | _, inf => true
  | inf, _ => false
  | _, neginf => false
  | num a, num b => a ≤ b

/-- IEEE comparison `a < b`. -/
def jlt (a b : JsNum) : Bool := jle a b && !(a == b)

/-- IEEE comparison `a >= b`. -/
def jge (a b : JsNum) : Bool := jle b a

/-- IEEE comparison `a > b`. -/
def jgt (a b : JsNum) : Bool := jlt b a

/-- JS `Math.abs`. -/
def jabs : JsNum → JsNum
  | num q => num |q|
  | inf => inf
  | neginf => inf
  | nan => nan

/-- JS truthiness of a number: `0` and `NaN` are falsy, everything else
(including the infinities) is truthy. -/
def jtruthy : JsNum → Bool
  | num q => !(q == 0)
  | inf => true
  | neginf => true
  | nan => false

end JsNum

open JsNum

/-- Pager orientation, the first component of a pager identifier. -/
inductive Orientation where
  | horizontal
  | vertical
deriving DecidableEq, Repr

/-- A pager identifier "orientation:nestingDepth:salt" (src/index.tsx
`pagerId`), modelled structurally: `orientation` is `split(":")[0]`,
`depth` is `Number(split(":")[1])`, `salt` keeps distinct mounts distinct. -/
structure PagerId where
  orientation : Orientation
  depth : ℕ
  salt : ℕ
deriving DecidableEq, Repr

/-- The `isGestureLocked` derived value (src/index.tsx): the pager is locked
when `activePagers` is non-empty and it is not the deepest active pager of
its own orientation, i.e. `activePagers.value.length && !(activePagers
.filter(sameOrientation).every(depth <= nestingDepth))`. -/
def isGestureLocked (activePagers : List PagerId) (orientation : Orientation)
    (nestingDepth : ℕ) : Bool :=
  let isDeepestInOrientation :=
    (activePagers.filter (fun v => v.orientation == orientation)).all
      (fun v => v.depth ≤ nestingDepth)
  !activePagers.isEmpty && !isDeepestInOrientation

/-- Registry effect of `panGesture.onBegin` (src/index.tsx).  The code reads
`if (!isAtEdge) { push pagerId }`, but `isAtEdge` is declared as
`isMinIndex || isMaxIndex` on the two derived-value *objects* (not their
`.value` fields), so it is always a truthy object reference and the
registration branch never executes: `onBegin` leaves `activePagers`
unchanged. -/
def onBeginActivePagers (activePagers : List PagerId) : List PagerId :=
  activePagers

/-- Result of one `panGesture.onTouchesMove` callback: the updated
`activePagers` registry and whether the gesture failed itself
(`mgr.fail()`). -/
structure TouchesMoveResult where
  activePagers : List PagerId
  failed : Bool
deriving DecidableEq, Repr

/-- The `panGesture.onTouchesMove` callback (src/index.tsx), on the state it
reads: `swipingPastEnd` holds when pinned at the min index and moving
positive or pinned at the max index and moving negative; the gesture fails
itself when bounce is disabled and swiping past the end, or locked, or
gestures are disabled.  On self-fail, the removal of `pagerId` from
`activePagers` sits inside the `if (debugTag)` logging block, so it only
happens when a debug tag is configured; otherwise (no fail) the pager is
registered if not already present (`includes` check then push). -/
def onTouchesMove (pagerId : PagerId) (activePagers : List PagerId)
    (isMinIndexVal isMaxIndexVal : Bool) (bouncePct : ℚ)
    (isGestureLockedVal gesturesDisabledVal : Bool)
    (evtTranslate : ℚ) (debugTag : Bool) : TouchesMoveResult :=
  let swipingPastEnd :=
    (isMinIndexVal && decide (0 < evtTranslate)) ||
    (isMaxIndexVal && decide (evtTranslate < 0))
  let shouldFailSelf :=
    (decide (bouncePct = 0) && swipingPastEnd) ||
    isGestureLockedVal || gesturesDisabledVal
  if shouldFailSelf then
    { activePagers :=
        if debugTag then activePagers.filter (fun pId => pId ≠ pagerId)
        else activePagers
      failed := true }
  else
    if pagerId ∈ activePagers then
      { activePagers := activePagers, failed := false }
    else
      { activePagers := activePagers ++ [pagerId], failed := false }

/-- The `panGesture.onUpdate` callback (src/index.tsx), returning the new
value of the `translate` shared value.  The update is skipped (translation
unchanged) when the pager is gesture-locked or the cross-axis displacement
exceeds both the 10-px dead zone and the primary displacement.  Otherwise
`rawVal = startTranslate + evtTranslate`; if the fractional page
`-rawVal / pageSize` lies within `[minIndex, maxIndex]` the raw value is
stored, else the bounce resistance `rawVal - (rawVal % pageSize) *
(1 - bouncePct)` is stored. -/
def panOnUpdate (minIndexAnim maxIndexAnim : JsNum) (bouncePct : ℚ)
    (startTranslate evtTranslate crossAxisTranslate pageSize : JsNum)
    (isGestureLockedVal : Bool) (translate : JsNum) : JsNum :=
  let isSwipingCrossAxis :=
    jgt (jabs crossAxisTranslate) (num 10) &&
    jgt (jabs crossAxisTranslate) (jabs evtTranslate)
  if isGestureLockedVal || isSwipingCrossAxis then translate
  else
    let rawVal := jadd startTranslate evtTranslate
    let page := jdiv (jneg rawVal) pageSize
    if jge page minIndexAnim && jle page maxIndexAnim then rawVal
    else
      let pageTrans := jmod rawVal pageSize
      let bounceTrans := jmul pageTrans (num (1 - bouncePct))
      jsub rawVal bounceTrans

/-- The `useDerivedValue` recomputing `pageAnim` (src/index.tsx): only when
`pageSize.value` is truthy is the projection `(translate / pageSize) * -1`
stored; otherwise `pageAnim` keeps its previous value. -/
def updatePageAnim (pageAnim pageSize translate : JsNum) : JsNum :=
  if jtruthy pageSize then jmul (jdiv translate pageSize) (num (-1))
  else pageAnim

/-- The target page computed by `panGesture.onEnd` (src/index.tsx) in the
laid-out case (all quantities finite, `pageSize ≠ 0`).  `isFling` holds when
the pager is neither locked nor swiping cross-axis and the end velocity
exceeds `flingVelocity` in magnitude; a fling adds half a page size signed
like the velocity before rounding; the result is clamped to the index bounds
(`none` models the `-Infinity` / `Infinity` defaults, against which the
clamping comparisons are vacuous). -/
def onEndTargetPage (minIndexAnim maxIndexAnim : Option ℤ)
    (flingVelocity pageSize translateVal : ℚ)
    (evtVelocity evtTranslate crossAxisTranslate : ℚ)
    (isGestureLockedVal : Bool) : ℤ :=
  let isSwipingCrossAxis := decide (|evtTranslate| < |crossAxisTranslate|)
  let isFling : Bool :=
    if isGestureLockedVal || isSwipingCrossAxis then false
    else decide (flingVelocity < |evtVelocity|)
  let velocityModifier : ℚ := if isFling then pageSize / 2 else 0
  let velocityModifier : ℚ :=
    if evtVelocity < 0 then velocityModifier * (-1) else velocityModifier
  let page : ℤ := -1 * jsRoundQ ((translateVal + velocityModifier) / pageSize)
  let page : ℤ := match minIndexAnim with
    | some m => if page < m then m else page
    | none => page
  match maxIndexAnim with
  | some m => if m < page then m else page
  | none => page

/-- The spring target set by `panGesture.onEnd`:
`withSpring(-page * pageSize)`. -/
def onEndSpringTarget (minIndexAnim maxIndexAnim : Option ℤ)
    (flingVelocity pageSize translateVal : ℚ)
    (evtVelocity evtTranslate crossAxisTranslate : ℚ)
    (isGestureLockedVal : Bool) : ℚ :=
  -(onEndTargetPage minIndexAnim maxIndexAnim flingVelocity pageSize
      translateVal evtVelocity evtTranslate crossAxisTranslate
      isGestureLockedVal : ℤ) * pageSize

/-- Registry effect of `panGesture.onFinalize` (src/index.tsx): the
finalizing pager's identifier is filtered out of `activePagers`
unconditionally. -/
def onFinalize (activePagers : List PagerId) (pagerId : PagerId) :
    List PagerId :=
  activePagers.filter (fun id => id ≠ pagerId)

/-- The `useAnimatedReaction` on `Math.round(pageAnim.value)`
(src/index.tsx), run over a sequence of frames of projection values: for
each frame the reaction computes `cur = Math.round(pageAnim)`, fires the
page-change callback exactly when `cur !== prev` (with `prev = null` before
the first frame), and carries `cur` forward as the new `prev`.  The result
lists, per frame, whether the callback fired. -/
def runReaction : Option ℤ → List ℚ → List Bool
  | _, [] => []
  | prev, v :: vs =>
    let cur := jsRoundQ v
    decide (some cur ≠ prev) :: runReaction (some cur) vs

/-- Index bound comparison `index < minIndex` where `none` models the
`-Infinity` default (against which the comparison is always false). -/
def belowMin (index : ℤ) : Option ℤ → Bool
  | some m => index < m
  | none => false

/-- Index bound comparison `index > maxIndex` where `none` models the
`Infinity` default (against which the comparison is always false). -/
def aboveMax (index : ℤ) : Option ℤ → Bool
  | some m => m < index
  | none => false

/-- Effect of `setPage(index)` (src/index.tsx) on the `translate` shared
value: `updatedTranslate = index * pSize * -1` is computed, then the call
returns without touching any state when `index < minIndex || index >
maxIndex`; otherwise `translate` is set to `updatedTranslate` (directly, or
as the settled value of the spring when `options.animated`). -/
def setPageTranslate (minIndex maxIndex : Option ℤ) (pageSize : ℚ)
    (translate : ℚ) (index : ℤ) : ℚ :=
  let updatedTranslate := (index : ℚ) * pageSize * (-1)
  if belowMin index minIndex || aboveMax index maxIndex then translate
  else updatedTranslate

/-- Committed page index after `translate` moves from `oldTranslate` to
`newTranslate`: `pageAnim` is recomputed as `(translate / pageSize) * -1`
only when `pageSize` is truthy, and the edge-triggered reaction calls
`setCurIndex` only when the rounded projection changed. -/
def commitIndex (pageSize : ℚ) (curIndex : ℤ)
    (oldTranslate newTranslate : ℚ) : ℤ :=
  if pageSize = 0 then curIndex
  else if jsRoundQ (newTranslate / pageSize * (-1)) ≠
      jsRoundQ (oldTranslate / pageSize * (-1)) then
    jsRoundQ (newTranslate / pageSize * (-1))
  else curIndex

/-- A pager at rest: the `translate` shared value and the committed
`curIndex` React state. -/
structure RestState where
  translate : ℚ
  curIndex : ℤ
deriving DecidableEq, Repr

/-- One `setPage(index)` call from a quiescent state, composed with the
subsequent `pageAnim` recomputation and reaction commit. -/
def setPageStep (minIndex maxIndex : Option ℤ) (pageSize : ℚ)
    (s : RestState) (index : ℤ) : RestState :=
  let updated := setPageTranslate minIndex maxIndex pageSize s.translate index
  { translate := updated
    curIndex := commitIndex pageSize s.curIndex s.translate updated }

/-- `ref.incrementPage()` followed by `ref.decrementPage()`
(src/index.tsx `useImperativeHandle`): each is `setPage(curIndexRef.current
± 1)`, where `curIndexRef` holds the committed index at call time. -/
def incThenDec (minIndex maxIndex : Option ℤ) (pageSize : ℚ)
    (s : RestState) : RestState :=
  let s1 := setPageStep minIndex maxIndex pageSize s (s.curIndex + 1)
  setPageStep minIndex maxIndex pageSize s1 (s1.curIndex - 1)

/-- The `initIdx` memo (src/index.tsx): `initialIndex` when truthy
(nonzero), else `minIndex` when `minIndex > 0`, else `maxIndex` when
`maxIndex < 0`, else `0`. -/
def initIdx (initialIndex : ℤ) (minIndex maxIndex : Option ℤ) : ℤ :=
  if initialIndex ≠ 0 then initialIndex
  else if 0 < minIndex.getD 0 then minIndex.getD 0
  else if maxIndex.getD 0 < 0 then maxIndex.getD 0
  else 0

/-- Static configuration of one pager instance, for the rest-state machine. -/
structure PagerConfig where
  minIndex : Option ℤ
  maxIndex : Option ℤ
  pageSize : ℚ
  initialIndex : ℤ
  flingVelocity : ℚ

/-- Quiescent states reachable by a pager instance: the mount initialization,
imperative `setPage` jumps (and the settled value of animated ones), and the
settled state of the `onEnd` spring.  In the settle and mount cases the
committed index is the rounded projection of the settled translation when
`pageSize` is nonzero (the edge-triggered reaction has fired for it by the
time the spring rests), and is unchanged when `pageSize = 0` (the projection
is never recomputed then). -/
inductive RestReachable (cfg : PagerConfig) : RestState → Prop where
  | mount :
      RestReachable cfg
        { translate :=
            (initIdx cfg.initialIndex cfg.minIndex cfg.maxIndex : ℚ) *
              cfg.pageSize * (-1)
          curIndex :=
            if cfg.pageSize = 0 then 0
            else initIdx cfg.initialIndex cfg.minIndex cfg.maxIndex }
  | setPage (s : RestState) (index : ℤ) (hs : RestReachable cfg s) :
      RestReachable cfg (setPageStep cfg.minIndex cfg.maxIndex cfg.pageSize s index)
  | gestureEnd (s : RestState)
      (translateDuring evtVelocity evtTranslate crossAxisTranslate : ℚ)
      (isGestureLockedVal : Bool) (hs : RestReachable cfg s)
      (hps : cfg.pageSize ≠ 0) :
      RestReachable cfg
        { translate :=
            onEndSpringTarget cfg.minIndex cfg.maxIndex cfg.flingVelocity
              cfg.pageSize translateDuring evtVelocity evtTranslate
              crossAxisTranslate isGestureLockedVal
          curIndex :=
            onEndTargetPage cfg.minIndex cfg.maxIndex cfg.flingVelocity
              cfg.pageSize translateDuring evtVelocity evtTranslate
              crossAxisTranslate isGestureLockedVal }

/-! Helper lemmas about the numeric model. -/

/-- Rounding an integer-valued projection returns the integer. -/
theorem jsRoundQ_intCast (n : ℤ) : jsRoundQ (n : ℚ) = n := by
  rw [jsRoundQ, add_comm, Int.floor_add_int]
  norm_num

/-- JS remainder of a value below one page size is the value itself. -/
theorem jsModQ_of_nonneg_lt (a b : ℚ) (h0 : 0 ≤ a) (h1 : a < b) :
    jsModQ a b = a := by
  have hb : 0 < b := lt_of_le_of_lt h0 h1
  have htr : jtruncQ (a / b) = 0 := by
    rw [jtruncQ, if_pos (div_nonneg h0 hb.le), Int.floor_eq_zero_iff]
    exact ⟨div_nonneg h0 hb.le, (div_lt_one hb).mpr h1⟩
  simp [jsModQ, htr]

/-- The reaction never fires when the translation is unchanged. -/
theorem commitIndex_self (ps : ℚ) (c : ℤ) (t : ℚ) :
    commitIndex ps c t t = c := by
  simp [commitIndex]

/-- Projecting `index * pageSize * (-1)` back through the `pageAnim`
formula recovers the index when the page size is nonzero. -/
theorem proj_roundtrip (ps : ℚ) (x : ℚ) (hps : ps ≠ 0) :
    x * ps * (-1) / ps * (-1) = x := by
  field_simp

/-- Being at or above the minimum bound is preserved by incrementing. -/
theorem belowMin_succ (c : ℤ) (minI : Option ℤ)
    (h : belowMin c minI = false) : belowMin (c + 1) minI = false := by
  cases minI with
  | none => rfl
  | some m => simp [belowMin] at h ⊢; omega

/-- Being below the maximum bound is preserved by decrementing. -/
theorem aboveMax_pred (c : ℤ) (maxI : Option ℤ)
    (h : aboveMax (c + 1) maxI = false) : aboveMax c maxI = false := by
  cases maxI with
  | none => rfl
  | some m => simp [aboveMax] at h ⊢; omega

namespace JsNum

/-- Comparison of finite values agrees with the rational order. -/
theorem jle_num (a b : ℚ) : jle (num a) (num b) = decide (a ≤ b) := rfl

/-- Equality test of finite values agrees with rational equality. -/
theorem beq_num (a b : ℚ) : (num a == num b) = decide (a = b) := by
  by_cases h : a = b <;> simp [h]

/-- Strict comparison of finite values agrees with the rational order. -/
theorem jlt_num (a b : ℚ) : jlt (num a) (num b) = decide (a < b) := by
  rw [jlt, jle_num, beq_num]
  rcases lt_trichotomy a b with h | h | h
  · simp [h, le_of_lt h, ne_of_lt h]
  · simp [h]
  · simp [not_le_of_lt h, not_lt_of_gt h, ne_of_gt h]

/-- Reverse comparison of finite values. -/
theorem jge_num (a b : ℚ) : jge (num a) (num b) = decide (b ≤ a) := rfl

/-- Reverse strict comparison of finite values. -/
theorem jgt_num (a b : ℚ) : jgt (num a) (num b) = decide (b < a) := by
  rw [jgt, jlt_num]

/-- Absolute value of a finite value. -/
theorem jabs_num (a : ℚ) : jabs (num a) = num |a| := rfl

/-- Negation of a finite value. -/
theorem jneg_num (a : ℚ) : jneg (num a) = num (-a) := rfl

/-- Addition of finite values. -/
theorem jadd_num (a b : ℚ) : jadd (num a) (num b) = num (a + b) := rfl

/-- Multiplication of finite values. -/
theorem jmul_num (a b : ℚ) : jmul (num a) (num b) = num (a * b) := rfl

/-- Subtraction of finite values. -/
theorem jsub_num (a b : ℚ) : jsub (num a) (num b) = num (a - b) := by
  rw [jsub, jneg_num, jadd_num, sub_eq_add_neg]

/-- Division of finite values with a nonzero divisor. -/
theorem jdiv_num (a b : ℚ) (h : b ≠ 0) : jdiv (num a) (num b) = num (a / b) := by
  simp [jdiv, h]

/-- Remainder of finite values with a nonzero divisor. -/
theorem jmod_num (a b : ℚ) (h : b ≠ 0) :
    jmod (num a) (num b) = num (jsModQ a b) := by
  simp [jmod, h]

end JsNum

/-- Frames of the reaction produce one fire flag per frame. -/
theorem runReaction_length (p0 : Option ℤ) (vs : List ℚ) :
    (runReaction p0 vs).length = vs.length := by
  induction vs generalizing p0 with
  | nil => rfl
  | cons v vs ih => simp [runReaction, ih]

/-! Claim theorems. -/

/-- C9: the page-change notification is edge-triggered: over every frame
sequence of projection values, the callback fires on a frame (after the
first) exactly when the rounded projection differs from the previous
frame's rounded projection, and never when they are equal — even if the
continuous projection oscillates around a rounding boundary. -/
theorem reaction_edge_triggered (p0 : Option ℤ) (vs : List ℚ) (i : ℕ)
    (h : i + 1 < vs.length) :
    (runReaction p0 vs).getD (i + 1) false =
      decide (jsRoundQ (vs.getD (i + 1) 0) ≠ jsRoundQ (vs.getD i 0)) := by
  induction vs generalizing p0 i with
  | nil => simp at h
  | cons v vs ih =>
    cases i with
    | zero =>
      cases vs with
      | nil => simp at h
      | cons w ws => simp [runReaction]
    | succ k =>
      have hk : k + 1 < vs.length := by simpa using h
      simpa [runReaction] using ih (some (jsRoundQ v)) k hk

/-- Witness for C9 on the spec's oscillating drag 0.5, 0.6, 0.4, 0.5, 0.6:
the frame at index 2 (value 0.4) fires because the rounded projection
changes from 1 to 0. -/
theorem reaction_edge_triggered_witness :
    ((1 : ℕ) + 1 < ([1/2, 3/5, 2/5, 1/2, 3/5] : List ℚ).length) ∧
    (runReaction none [1/2, 3/5, 2/5, 1/2, 3/5]).getD (1 + 1) false =
      decide (jsRoundQ (([1/2, 3/5, 2/5, 1/2, 3/5] : List ℚ).getD (1 + 1) 0) ≠
        jsRoundQ (([1/2, 3/5, 2/5, 1/2, 3/5] : List ℚ).getD 1 0)) :=
  ⟨by decide, reaction_edge_triggered none [1/2, 3/5, 2/5, 1/2, 3/5] 1 (by decide)⟩

/-- Rounding the projection of the rest translation `x * ps * (-1)`
recovers `x`. -/
theorem jsRound_proj (ps : ℚ) (hps : ps ≠ 0) (x : ℤ) :
    jsRoundQ ((x : ℚ) * ps * (-1) / ps * (-1)) = x := by
  rw [proj_roundtrip ps _ hps, jsRoundQ_intCast]

/-- C1: in every reachable rest state of a pager instance (mount, settled
`setPage`, settled `onEnd` spring), the translation equals
`-curIndex * pageSize`. -/
theorem rest_invariant (cfg : PagerConfig) (s : RestState)
    (h : RestReachable cfg s) :
    s.translate = -(s.curIndex : ℚ) * cfg.pageSize := by
  induction h with
  | mount =>
    rcases eq_or_ne cfg.pageSize 0 with hps | hps
    · simp [hps]
    · simp only [if_neg hps]
      ring
  | setPage s index hs ih =>
    simp only [setPageStep, setPageTranslate]
    by_cases hcond : (belowMin index cfg.minIndex ||
        aboveMax index cfg.maxIndex) = true
    · simp only [hcond, if_true, commitIndex_self]
      exact ih
    · rw [Bool.not_eq_true] at hcond
      simp only [hcond, Bool.false_eq_true, if_false]
      rcases eq_or_ne cfg.pageSize 0 with hps | hps
      · simp [commitIndex, hps]
      · have hnew : jsRoundQ ((index : ℚ) * cfg.pageSize * (-1) /
            cfg.pageSize * (-1)) = index := jsRound_proj _ hps index
        have hold : jsRoundQ (s.translate / cfg.pageSize * (-1))
            = s.curIndex := by
          rw [ih, show -(s.curIndex : ℚ) * cfg.pageSize
              = (s.curIndex : ℚ) * cfg.pageSize * (-1) from by ring]
          exact jsRound_proj _ hps s.curIndex
        simp only [commitIndex, if_neg hps, hnew, hold]
        by_cases hic : index = s.curIndex
        · subst hic
          simp only [ne_eq, not_true_eq_false, Bool.false_eq_true, if_false]
          ring
        · simp only [ne_eq, hic, not_false_eq_true, if_true]
          ring
  | gestureEnd s td ev et cr lk hs hps ih =>
    simp only [onEndSpringTarget]

/-- Witness for C1: the mounted pager with `initialIndex = 2`, bounds
`[0, 5]` and `pageSize = 300` rests at translation `-600 = -2 * 300`. -/
theorem rest_invariant_witness :
    RestReachable ⟨some 0, some 5, 300, 2, 500⟩ ⟨-600, 2⟩ ∧
      (RestState.mk (-600) 2).translate =
        -((RestState.mk (-600) 2).curIndex : ℚ) * 300 := by
  have hreach : RestReachable ⟨some 0, some 5, 300, 2, 500⟩ ⟨-600, 2⟩ := by
    have h0 := @RestReachable.mount ⟨some 0, some 5, 300, 2, 500⟩
    convert h0 using 1
    norm_num [initIdx]
  exact ⟨hreach, rest_invariant ⟨some 0, some 5, 300, 2, 500⟩ ⟨-600, 2⟩ hreach⟩

/-- C6 counterexample: an instance pinned at the min boundary with bounce
disabled (`isMinIndex = true`, `bouncePct = 0`) whose touch moves inward
(`evtTranslate = -5`) does not self-fail and is registered in
`activeTouches`; moreover a self-failing `onTouchesMove` (outward move
`+5`) with the default empty `debugTag` leaves the already-registered
identifier in `activeTouches` instead of removing it. -/
theorem activeTouches_invariant_cex :
    (onTouchesMove ⟨Orientation.horizontal, 0, 0⟩ [] true false 0 false false
        (-5) false).activePagers = [⟨Orientation.horizontal, 0, 0⟩] ∧
    (onTouchesMove ⟨Orientation.horizontal, 0, 0⟩
        [⟨Orientation.horizontal, 0, 0⟩] true false 0 false false 5
        false).failed = true ∧
    (onTouchesMove ⟨Orientation.horizontal, 0, 0⟩
        [⟨Orientation.horizontal, 0, 0⟩] true false 0 false false 5
        false).activePagers = [⟨Orientation.horizontal, 0, 0⟩] := by
  decide

/-- C6 amended: identifiers enter `activeTouches` only through the
instance's own gesture callbacks between begin and finalize — `onBegin`
leaves the registry unchanged (its registration branch is dead because
`isAtEdge` tests object truthiness), a non-failing `onTouchesMove` adds at
most the instance's own identifier (even when the instance is pinned at a
boundary with bounce disabled, as long as the displacement is not past the
end), a self-failing `onTouchesMove` removes the identifier only when
`debugTag` is set and otherwise leaves the registry unchanged, and
`onFinalize` removes the identifier unconditionally. -/
theorem activeTouches_lifecycle (pagerId : PagerId) (active : List PagerId)
    (isMin isMax : Bool) (b : ℚ) (locked disabled : Bool) (evtT : ℚ)
    (dbg : Bool) :
    onBeginActivePagers active = active ∧
    ((onTouchesMove pagerId active isMin isMax b locked disabled evtT
        dbg).failed = false →
      pagerId ∈ (onTouchesMove pagerId active isMin isMax b locked disabled
          evtT dbg).activePagers ∧
        ∀ q ∈ (onTouchesMove pagerId active isMin isMax b locked disabled
            evtT dbg).activePagers, q ∈ active ∨ q = pagerId) ∧
    ((onTouchesMove pagerId active isMin isMax b locked disabled evtT
        dbg).failed = true → dbg = true →
      (onTouchesMove pagerId active isMin isMax b locked disabled evtT
          dbg).activePagers = active.filter (fun pId => pId ≠ pagerId)) ∧
    ((onTouchesMove pagerId active isMin isMax b locked disabled evtT
        dbg).failed = true → dbg = false →
      (onTouchesMove pagerId active isMin isMax b locked disabled evtT
          dbg).activePagers = active) ∧
    pagerId ∉ onFinalize active pagerId := by
  refine ⟨rfl, ?_, ?_, ?_, by simp [onFinalize, List.mem_filter]⟩
  · simp only [onTouchesMove]
    split
    · simp
    · split
      · rename_i hmem
        intro _
        refine ⟨hmem, ?_⟩
        intro q hq
        exact Or.inl hq
      · intro _
        refine ⟨by simp, ?_⟩
        intro q hq
        rcases List.mem_append.mp hq with h | h
        · exact Or.inl h
        · simp at h
          exact Or.inr h
  · simp only [onTouchesMove]
    split
    · intro _ hdbg
      simp [hdbg]
    · split <;> simp
  · simp only [onTouchesMove]
    split
    · intro _ hdbg
      simp [hdbg]
    · split <;> simp

/-- Witness for C6 amended at a concrete non-failing move. -/
theorem activeTouches_lifecycle_witness :
    onBeginActivePagers [⟨Orientation.vertical, 1, 2⟩] =
        [(⟨Orientation.vertical, 1, 2⟩ : PagerId)] ∧
    ((onTouchesMove ⟨Orientation.horizontal, 0, 0⟩
        [⟨Orientation.vertical, 1, 2⟩] false false (1/4) false false 5
        false).failed = false →
      (⟨Orientation.horizontal, 0, 0⟩ : PagerId) ∈
          (onTouchesMove ⟨Orientation.horizontal, 0, 0⟩
            [⟨Orientation.vertical, 1, 2⟩] false false (1/4) false false 5
            false).activePagers ∧
        ∀ q ∈ (onTouchesMove ⟨Orientation.horizontal, 0, 0⟩
            [⟨Orientation.vertical, 1, 2⟩] false false (1/4) false false 5
            false).activePagers,
          q ∈ [(⟨Orientation.vertical, 1, 2⟩ : PagerId)] ∨
            q = ⟨Orientation.horizontal, 0, 0⟩) ∧
    ((onTouchesMove ⟨Orientation.horizontal, 0, 0⟩
        [⟨Orientation.vertical, 1, 2⟩] false false (1/4) false false 5
        false).failed = true → false = true →
      (onTouchesMove ⟨Orientation.horizontal, 0, 0⟩
          [⟨Orientation.vertical, 1, 2⟩] false false (1/4) false false 5
          false).activePagers =
        [⟨Orientation.vertical, 1, 2⟩].filter
          (fun pId => pId ≠ ⟨Orientation.horizontal, 0, 0⟩)) ∧
    ((onTouchesMove ⟨Orientation.horizontal, 0, 0⟩
        [⟨Orientation.vertical, 1, 2⟩] false false (1/4) false false 5
        false).failed = true → false = false →
      (onTouchesMove ⟨Orientation.horizontal, 0, 0⟩
          [⟨Orientation.vertical, 1, 2⟩] false false (1/4) false false 5
          false).activePagers = [⟨Orientation.vertical, 1, 2⟩]) ∧
    (⟨Orientation.horizontal, 0, 0⟩ : PagerId) ∉
      onFinalize [⟨Orientation.vertical, 1, 2⟩]
        ⟨Orientation.horizontal, 0, 0⟩ :=
  activeTouches_lifecycle ⟨Orientation.horizontal, 0, 0⟩
    [⟨Orientation.vertical, 1, 2⟩] false false (1/4) false false 5 false

/-- C7 counterexample: from the settled state at `curIndex = 1` with bounds
`[0, 1]` and `pageSize = 300`, `incrementPage()` is a silent no-op
(`setPage(2)` is out of range) but the following `decrementPage()` jumps to
page 0, so the round trip ends at `⟨0, 0⟩`, not at the original state
`⟨-300, 1⟩`. -/
theorem inc_dec_roundtrip_cex :
    RestReachable ⟨some 0, some 1, 300, 0, 500⟩ ⟨-300, 1⟩ ∧
      incThenDec (some 0) (some 1) 300 ⟨-300, 1⟩ ≠ ⟨-300, 1⟩ := by
  constructor
  · have h0 := @RestReachable.mount ⟨some 0, some 1, 300, 0, 500⟩
    have h1 := RestReachable.setPage _ 1 h0
    convert h1 using 1
    norm_num [setPageStep, setPageTranslate, commitIndex, belowMin, aboveMax,
      initIdx, jsRoundQ]
  · norm_num [incThenDec, setPageStep, setPageTranslate, commitIndex,
      belowMin, aboveMax, jsRoundQ]

/-- C7 amended: from a settled state whose committed index can actually be
incremented (`curIndex + 1` within the max bound), `incrementPage()`
followed by `decrementPage()` restores the original committed index and
the exact original translation value. -/
theorem inc_dec_roundtrip (minI maxI : Option ℤ) (ps : ℚ) (c : ℤ)
    (hps : ps ≠ 0) (hmin : belowMin c minI = false)
    (hmax : aboveMax (c + 1) maxI = false) :
    incThenDec minI maxI ps ⟨(c : ℚ) * ps * (-1), c⟩
      = ⟨(c : ℚ) * ps * (-1), c⟩ := by
  have hmin1 : belowMin (c + 1) minI = false := belowMin_succ c minI hmin
  have hmax0 : aboveMax c maxI = false := aboveMax_pred c maxI hmax
  have hround : ∀ x : ℤ, jsRoundQ ((x : ℚ) * ps * (-1) / ps * (-1)) = x := by
    intro x
    rw [proj_roundtrip ps _ hps, jsRoundQ_intCast]
  have hne : c + 1 ≠ c := by omega
  have h1 : setPageStep minI maxI ps ⟨(c : ℚ) * ps * (-1), c⟩ (c + 1)
      = ⟨((c + 1 : ℤ) : ℚ) * ps * (-1), c + 1⟩ := by
    simp only [setPageStep, setPageTranslate, commitIndex, hmin1, hmax,
      Bool.or_self, Bool.false_eq_true, if_false, if_neg hps,
      hround (c + 1), hround c, ne_eq, hne, not_false_eq_true, if_true]
  have h2 : setPageStep minI maxI ps ⟨((c + 1 : ℤ) : ℚ) * ps * (-1), c + 1⟩
      (c + 1 - 1) = ⟨(c : ℚ) * ps * (-1), c⟩ := by
    have hc : c + 1 - 1 = c := by omega
    rw [hc]
    simp only [setPageStep, setPageTranslate, commitIndex, hmin, hmax0,
      Bool.or_self, Bool.false_eq_true, if_false, if_neg hps,
      hround (c + 1), hround c, ne_eq, Ne.symm hne, not_false_eq_true,
      if_true]
  rw [incThenDec, h1]
  exact h2

/-- Witness for C7 amended with bounds `[0, 5]`, `pageSize = 300`,
settled at page 2. -/
theorem inc_dec_roundtrip_witness :
    ((300 : ℚ) ≠ 0) ∧ belowMin 2 (some 0) = false ∧
      aboveMax (2 + 1) (some 5) = false ∧
      incThenDec (some 0) (some 5) 300 ⟨(2 : ℚ) * 300 * (-1), 2⟩
        = ⟨(2 : ℚ) * 300 * (-1), 2⟩ :=
  ⟨by norm_num, by decide, by decide,
   inc_dec_roundtrip (some 0) (some 5) 300 2 (by norm_num) (by decide)
     (by decide)⟩

/-- C2 counterexample: with `minIndex = 0`, `bouncePct = 0`, `pageSize =
300`, starting from rest at page 1 (`startTranslate = -300`) and dragging
`+750` so that the raw translation is `450` (fractional page `-1.5`, past
the min boundary), `onUpdate` stores `450 - (450 % 300) * 1 = 300`, not the
page-0 rest translation `0`: the claimed hard stop fails once the overshoot
exceeds one page size. -/
theorem bounce_resistance_cex :
    panOnUpdate (num 0) (num 10) 0 (num (-300)) (num 750) (num 0) (num 300)
        false (num (-300)) = num 300 ∧
      (num 300 : JsNum) ≠ num (-(0 : ℚ) * 300) := by
  constructor
  · norm_num [panOnUpdate, jgt_num, jabs_num, jadd_num, jneg_num, jge_num,
      jle_num, jsModQ, jtruncQ, jdiv_num, jmod_num, jmul_num, jsub_num]
  · norm_num

/-- C2 amended: during an unskipped `onUpdate` whose fractional page lies
outside `[minIndex, maxIndex]`, the stored translation is always
`rawTranslation - (rawTranslation % pageSize) * (1 - bouncePct)` (JS
truncated remainder); the hard stop at the page-0 rest translation for
`bouncePct = 0` and the exact half-overshoot displacement for `bouncePct =
1/2` hold when the raw translation past the boundary is less than one page
size; `bouncePct = 1` always gives unresisted motion. -/
theorem bounce_resistance_amended (minI maxI b st evtT cross ps : ℚ)
    (tr : JsNum) (hps : ps ≠ 0)
    (hcross : ¬(10 < |cross| ∧ |evtT| < |cross|))
    (houtside : ¬(minI ≤ -(st + evtT) / ps ∧ -(st + evtT) / ps ≤ maxI)) :
    panOnUpdate (num minI) (num maxI) b (num st) (num evtT) (num cross)
        (num ps) false tr =
      num (st + evtT - jsModQ (st + evtT) ps * (1 - b)) ∧
    (b = 0 → 0 ≤ st + evtT → st + evtT < ps →
      panOnUpdate (num minI) (num maxI) b (num st) (num evtT) (num cross)
        (num ps) false tr = num 0) ∧
    (b = 1/2 → 0 ≤ st + evtT → st + evtT < ps →
      panOnUpdate (num minI) (num maxI) b (num st) (num evtT) (num cross)
        (num ps) false tr = num ((st + evtT) / 2)) ∧
    (b = 1 →
      panOnUpdate (num minI) (num maxI) b (num st) (num evtT) (num cross)
        (num ps) false tr = num (st + evtT)) := by
  have hswipe : (jgt (jabs (num cross)) (num 10) &&
      jgt (jabs (num cross)) (jabs (num evtT))) = false := by
    rw [jabs_num, jabs_num, jgt_num, jgt_num, ← Bool.decide_and]
    exact decide_eq_false hcross
  have hbranch : (jge (jdiv (jneg (num (st + evtT))) (num ps))
      (num minI) && jle (jdiv (jneg (num (st + evtT))) (num ps))
      (num maxI)) = false := by
    rw [jneg_num, jdiv_num _ _ hps, jge_num, jle_num, ← Bool.decide_and]
    exact decide_eq_false houtside
  have hmain : panOnUpdate (num minI) (num maxI) b (num st) (num evtT)
      (num cross) (num ps) false tr =
      num (st + evtT - jsModQ (st + evtT) ps * (1 - b)) := by
    rw [panOnUpdate]
    simp only [hswipe, hbranch, Bool.false_or, Bool.or_false, if_false,
      Bool.false_eq_true, jadd_num, jmod_num _ _ hps, jmul_num, jsub_num]
  refine ⟨hmain, ?_, ?_, ?_⟩
  · intro hb h0 h1
    rw [hmain, jsModQ_of_nonneg_lt _ _ h0 h1, hb]
    norm_num
  · intro hb h0 h1
    rw [hmain, jsModQ_of_nonneg_lt _ _ h0 h1, hb]
    congr 1
    ring
  · intro hb
    rw [hmain, hb]
    norm_num

/-- Witness for C2 amended, at `bouncePct = 1/2`, raw translation `150`
past the min boundary from rest at page 1. -/
theorem bounce_resistance_amended_witness :
    ((300 : ℚ) ≠ 0) ∧
    (¬(10 < |(0 : ℚ)| ∧ |(450 : ℚ)| < |(0 : ℚ)|)) ∧
    (¬((0 : ℚ) ≤ -((-300) + 450) / 300 ∧ -((-300) + 450) / 300 ≤ (10 : ℚ))) ∧
    panOnUpdate (num 0) (num 10) (1/2) (num (-300)) (num 450) (num 0)
        (num 300) false (num (-300)) =
      num ((-300) + 450 - jsModQ ((-300) + 450) 300 * (1 - 1/2)) :=
  ⟨by norm_num, by norm_num, by norm_num,
   (bounce_resistance_amended 0 10 (1/2) (-300) 450 0 300 (num (-300))
     (by norm_num) (by norm_num) (by norm_num)).1⟩

/-- C4 counterexample: an `onUpdate` arriving while `pageSize = 0` is not a
no-op and can corrupt state: with the default infinite bounds and raw
translation `0`, the fractional page is `-0/0 = NaN`, the bounds check
fails, and the resistance branch stores `0 - (0 % 0) * 1 = NaN` into the
translation, changing it from its previous value `0`. -/
theorem zero_pageSize_cex :
    panOnUpdate neginf inf 0 (num 0) (num 0) (num 0) (num 0) false (num 0)
        = nan ∧ (nan : JsNum) ≠ num 0 := by
  constructor
  · norm_num [panOnUpdate, jgt_num, jabs_num, jadd_num, jneg, jadd, jdiv,
      jge, jle, jmod, jmul, jsub]
  · decide

/-- C4 amended: while `pageSize = 0` the page projection (`pageAnim`) does
hold its previous value (the recomputation is guarded by JS truthiness),
but gesture updates are not no-ops: with the default infinite bounds and a
nonzero raw translation, the infinite fractional page passes the bounds
check and `onUpdate` stores the raw translation; with raw translation `0`
(and likewise with finite bounds) it stores `NaN`. -/
theorem zero_pageSize_amended :
    (∀ pageAnim translate : JsNum,
      updatePageAnim pageAnim (num 0) translate = pageAnim) ∧
    (∀ b q : ℚ, q ≠ 0 →
      panOnUpdate neginf inf b (num q) (num 0) (num 0) (num 0) false (num 0)
        = num q) ∧
    (∀ (b : ℚ) (tr : JsNum),
      panOnUpdate neginf inf b (num 0) (num 0) (num 0) (num 0) false tr
        = nan) := by
  refine ⟨?_, ?_, ?_⟩
  · intro pageAnim translate
    simp [updatePageAnim, jtruthy]
  · intro b q hq
    have hadd : jadd (num q) (num 0) = num q := by rw [jadd_num]; norm_num
    rcases lt_or_gt_of_ne hq with h | h
    · have hdiv : jdiv (jneg (num q)) (num 0) = inf := by
        rw [jneg_num]
        simp [jdiv, neg_pos, h]
      rw [panOnUpdate]
      norm_num [jgt_num, jabs_num, hadd, hdiv, jge, jle]
    · have hdiv : jdiv (jneg (num q)) (num 0) = neginf := by
        rw [jneg_num]
        simp [jdiv, neg_pos, asymm h, neg_lt_zero, h]
      rw [panOnUpdate]
      norm_num [jgt_num, jabs_num, hadd, hdiv, jge, jle]
  · intro b tr
    norm_num [panOnUpdate, jgt_num, jabs_num, jadd_num, jneg, jadd, jdiv,
      jge, jle, jmod, jmul, jsub]

/-- Witness for C4 amended at concrete values. -/
theorem zero_pageSize_amended_witness :
    ((100 : ℚ) ≠ 0) ∧
    updatePageAnim (num 7) (num 0) (num 3) = num 7 ∧
    panOnUpdate neginf inf 0 (num 100) (num 0) (num 0) (num 0) false (num 0)
      = num 100 ∧
    panOnUpdate neginf inf 0 (num 0) (num 0) (num 0) (num 0) false (num 5)
      = nan :=
  ⟨by norm_num, zero_pageSize_amended.1 (num 7) (num 3),
   zero_pageSize_amended.2.1 0 100 (by norm_num),
   zero_pageSize_amended.2.2 0 (num 5)⟩

/-- C3 counterexample: with `pageSize = 300`, `flingVelocity = 500`, an end
event with velocity `+600` and stored translation `-50` on an unlocked,
non-cross-swiping instance, `onEnd` computes target page `0`, not `1`: the
positive velocity adds `+150` before rounding, and
`-round((-50 + 150) / 300) = 0`. -/
theorem fling_decision_cex :
    onEndTargetPage none none 500 300 (-50) 600 (-50) 0 false = 0 ∧
      (0 : ℤ) ≠ 1 := by
  refine ⟨?_, by decide⟩
  norm_num [onEndTargetPage, jsRoundQ]

/-- C3 amended: the half-page velocity offset is signed like the velocity,
so the fling that settles on page 1 from translation `-50` is the one whose
end velocity is `-600` (the same direction as the drag): the target is `1`,
overriding nearest-page rounding, which (velocity `0`) would give `0`. -/
theorem fling_decision_amended :
    onEndTargetPage none none 500 300 (-50) (-600) (-50) 0 false = 1 ∧
      onEndTargetPage none none 500 300 (-50) 0 (-50) 0 false = 0 := by
  constructor <;> norm_num [onEndTargetPage, jsRoundQ]

/-- C10: `onFinalize` removes exactly the finalizing instance's own
identifier from `activePagers`: afterwards that identifier is absent, and
the membership of every other instance's identifier is unchanged. -/
theorem onFinalize_removes_exactly_self (active : List PagerId)
    (pagerId other : PagerId) (h : other ≠ pagerId) :
    pagerId ∉ onFinalize active pagerId ∧
      (other ∈ onFinalize active pagerId ↔ other ∈ active) := by
  constructor
  · simp [onFinalize, List.mem_filter]
  · simp [onFinalize, List.mem_filter, h]

/-- Witness for C10 at a concrete registry. -/
theorem onFinalize_removes_exactly_self_witness :
    ((⟨Orientation.vertical, 1, 5⟩ : PagerId) ≠ ⟨Orientation.horizontal, 0, 3⟩) ∧
    ((⟨Orientation.horizontal, 0, 3⟩ : PagerId) ∉
        onFinalize [⟨Orientation.horizontal, 0, 3⟩, ⟨Orientation.vertical, 1, 5⟩]
          ⟨Orientation.horizontal, 0, 3⟩ ∧
      ((⟨Orientation.vertical, 1, 5⟩ : PagerId) ∈
          onFinalize [⟨Orientation.horizontal, 0, 3⟩, ⟨Orientation.vertical, 1, 5⟩]
            ⟨Orientation.horizontal, 0, 3⟩ ↔
        (⟨Orientation.vertical, 1, 5⟩ : PagerId) ∈
          [⟨Orientation.horizontal, 0, 3⟩, ⟨Orientation.vertical, 1, 5⟩])) :=
  ⟨by decide,
   onFinalize_removes_exactly_self
     [⟨Orientation.horizontal, 0, 3⟩, ⟨Orientation.vertical, 1, 5⟩]
     ⟨Orientation.horizontal, 0, 3⟩ ⟨Orientation.vertical, 1, 5⟩ (by decide)⟩

/-- C5: a pager is arbitration-locked (and its `onUpdate` then leaves the
translation unchanged) if and only if `activePagers` is non-empty and
contains an active instance of the same orientation with strictly greater
nesting depth; in particular activity of the other orientation alone never
locks it. -/
theorem gesture_lock_rule (active : List PagerId) (o : Orientation) (d : ℕ) :
    (isGestureLocked active o d = true ↔
      active ≠ [] ∧ ∃ k, k ∈ active ∧ k.orientation = o ∧ d < k.depth) ∧
    (∀ (minA maxA : JsNum) (b : ℚ) (st evtT cross ps tr : JsNum),
      isGestureLocked active o d = true →
      panOnUpdate minA maxA b st evtT cross ps (isGestureLocked active o d) tr
        = tr) := by
  constructor
  · simp [isGestureLocked, List.isEmpty_eq_false, List.all_eq_true,
      List.mem_filter]
  · intro minA maxA b st evtT cross ps tr h
    rw [h]
    simp [panOnUpdate]

/-- Witness for C5: a deeper active horizontal pager locks a horizontal
pager at depth 0, and a locked `onUpdate` keeps the translation. -/
theorem gesture_lock_rule_witness :
    (isGestureLocked [⟨Orientation.horizontal, 1, 0⟩] Orientation.horizontal 0
        = true ↔
      ([⟨Orientation.horizontal, 1, 0⟩] : List PagerId) ≠ [] ∧
        ∃ k, k ∈ [(⟨Orientation.horizontal, 1, 0⟩ : PagerId)] ∧
          k.orientation = Orientation.horizontal ∧ 0 < k.depth) ∧
    (isGestureLocked [⟨Orientation.horizontal, 1, 0⟩] Orientation.horizontal 0
        = true →
      panOnUpdate (num 0) (num 10) 0 (num 0) (num 50) (num 0) (num 300)
        (isGestureLocked [⟨Orientation.horizontal, 1, 0⟩]
          Orientation.horizontal 0) (num (-42)) = num (-42)) :=
  ⟨(gesture_lock_rule [⟨Orientation.horizontal, 1, 0⟩] Orientation.horizontal 0).1,
   (gesture_lock_rule [⟨Orientation.horizontal, 1, 0⟩] Orientation.horizontal 0).2
     (num 0) (num 10) 0 (num 0) (num 50) (num 0) (num 300) (num (-42))⟩

/-- C8: for every index outside `[minIndex, maxIndex]`, `setPage(index)` is
a silent no-op: the translation and the committed index are unchanged (the
function returns before any mutation; no error is raised). -/
theorem setPage_out_of_range_noop (minI maxI : Option ℤ) (ps : ℚ)
    (s : RestState) (index : ℤ)
    (h : belowMin index minI = true ∨ aboveMax index maxI = true) :
    setPageStep minI maxI ps s index = s := by
  rcases h with h | h <;>
    simp [setPageStep, setPageTranslate, h, commitIndex_self]

/-- Witness for C8: `setPage(5)` with bounds `[0, 3]` leaves the settled
state untouched. -/
theorem setPage_out_of_range_noop_witness :
    (belowMin 5 (some 0) = true ∨ aboveMax 5 (some 3) = true) ∧
      setPageStep (some 0) (some 3) 300 ⟨-300, 1⟩ 5 = ⟨-300, 1⟩ :=
  ⟨Or.inr (by decide),
   setPage_out_of_range_noop (some 0) (some 3) 300 ⟨-300, 1⟩ 5
     (Or.inr (by decide))⟩

end InfinitePager
